import Mathlib

/-!
# ADS1115 driver and sampling loop (`i2c/main/user_main.c`)

A shallow embedding of the register codec, the configuration-word packing,
the register read/write transactions and the sampling task of
`user_main.c`, followed by the properties established about them.

Conventions of the embedding:

* `uint8_t` / `uint16_t` values are natural numbers; every store into a
  `uint16_t` is an explicit `% 65536`, every store into a `uint8_t` an
  explicit `% 256` (or the `& 0xFF` of the source).
* Calls into the SDK (`vTaskDelay`, `i2c_driver_install`,
  `i2c_master_cmd_begin`, `ESP_LOGI`, ...) are recorded, in program order, as
  events of a trace.  What the SDK answers is given by an environment `Env`,
  an arbitrary function of the history of events so far.
* The `double` arithmetic of the sampling loop is read over the rationals:
  `1.25e-4` is the rational `1/8000` and the product is exact.
-/

namespace ADS1115

/-! ## Constants of the source -/

/-- ADS1115 pin address `ADS1115_GND` (line 25). -/
def ADS1115_GND : Nat := 0x48

/-- Modelled from the spec: the SDK enumerators `I2C_MASTER_WRITE` of
`driver/i2c.h`, which is not among the sources; the direction is the low bit
of the address byte, 0 for a write. -/
def WRITE_BIT : Nat := 0

/-- Modelled from the spec: the SDK enumerator `I2C_MASTER_READ` of
`driver/i2c.h`, which is not among the sources; the direction is the low bit
of the address byte, 1 for a read. -/
def READ_BIT : Nat := 1

/-- Constant `ACK_CHECK_EN` (line 32). -/
def ACK_CHECK_EN : Nat := 0x1

/-- Constant `LAST_NACK_VAL` (line 36). -/
def LAST_NACK_VAL : Nat := 0x2

/-- Register address `ADS1115_CONV` (line 39). -/
def ADS1115_CONV : Nat := 0x00

/-- Register address `ADS1115_CONFIG` (line 40). -/
def ADS1115_CONFIG : Nat := 0x01

/-- Status `ESP_OK` of `esp_err.h`. -/
def ESP_OK : Int := 0

/-- Port `I2C_MASTER_NUM`, that is `I2C_NUM_0` (line 20). -/
def I2C_MASTER_NUM : Nat := 0

/-! ## Register codec (lines 119-121 and 133) -/

/-- The two bytes `data_write` stores in `buf` for the 16-bit value `data`
(lines 120-121). -/
def encode16 (data : Nat) : List Nat :=
  [(data >>> 8) &&& 0xFF, (data >>> 0) &&& 0xFF]

/-- The value `data_read` stores into `*data` from `buf` (line 133):
`(buf[0] << 8) | buf[1]`, truncated to `uint16_t`. -/
def decode16 (buf : List Nat) : Nat :=
  ((buf.getD 0 0 <<< 8) ||| buf.getD 1 0) % 65536

/-! ## Configuration word (lines 44-56 and 142-162) -/

/-- The sub-fields of `struct conf` (lines 44-56); `CONFIG` is computed from
the others by `packConfig`. -/
structure ADS1115_CONF where
  OS : Nat
  MUX : Nat
  PGA : Nat
  MODE : Nat
  DR : Nat
  COMP_MODE : Nat
  COMP_POL : Nat
  COMP_LAT : Nat
  COMP_QUE : Nat
  deriving DecidableEq, Repr

/-- The values assigned to `conf` in `i2c_master_ads1115_init`
(lines 143-151). -/
def defaultConf : ADS1115_CONF :=
  { OS := 0x00, MUX := 0x04, PGA := 0x01, MODE := 0x00, DR := 0x04,
    COMP_MODE := 0x00, COMP_POL := 0x00, COMP_LAT := 0x00, COMP_QUE := 0x02 }

/-- The defaults with `PGA` set to 8, one more than three bits hold. -/
def confOversizedPGA : ADS1115_CONF :=
  { defaultConf with PGA := 8 }

/-- The shift-and-OR sequence of lines 153-162; each assignment to the
`uint16_t data` truncates to 16 bits. -/
def packConfig (conf : ADS1115_CONF) : Nat :=
  let data := ((conf.OS <<< 3) ||| conf.MUX) % 65536
  let data := ((data <<< 3) ||| conf.PGA) % 65536
  let data := ((data <<< 1) ||| conf.MODE) % 65536
  let data := ((data <<< 3) ||| conf.DR) % 65536
  let data := ((data <<< 1) ||| conf.COMP_MODE) % 65536
  let data := ((data <<< 1) ||| conf.COMP_POL) % 65536
  let data := ((data <<< 1) ||| conf.COMP_LAT) % 65536
  let data := ((data <<< 2) ||| conf.COMP_QUE) % 65536
  data

/-! ## Sample-to-voltage conversion and the logged numbers (lines 195-196) -/

/-- The conversion of line 195, `voltage = (double)data * 1.25e-4`, over the
rationals: `data` is the `uint16_t` filled by `data_read`, so the cast takes
it as a non-negative number. -/
def voltage (data : Nat) : ℚ :=
  (data : ℚ) * (125 / 1000000)

/-- First argument of the log call of line 196, `(uint16_t)voltage`: the
conversion truncates toward zero and keeps 16 bits. -/
def logInt (data : Nat) : Nat :=
  ⌊voltage data⌋₊ % 65536

/-- Second argument of the log call of line 196,
`(uint16_t)(voltage * 100) % 100`: the cast binds tighter than `%`.  The
product is exact here; the binary `double` product of the code can fall
just below an integer that the exact product reaches, and the code then
logs one less (raw word 2320: 28 in the code, 29 here). -/
def logFrac (data : Nat) : Nat :=
  (⌊voltage data * 100⌋₊ % 65536) % 100

/-- The text `printf` produces for `"%d.%d"` with two non-negative
arguments: both numbers in decimal, without padding, a dot between them. -/
def formatVoltage (i f : Nat) : String :=
  Nat.repr i ++ "." ++ Nat.repr f

/-- The number denoted by the decimal text `formatVoltage i f`: the digits
of `f` are read as the places after the decimal point. -/
def decimalValue (i f : Nat) : ℚ :=
  (i : ℚ) + (f : ℚ) / 10 ^ (Nat.repr f).length

/-- A 16-bit word read as a two's-complement signed quantity. -/
def toSigned16 (w : Nat) : Int :=
  if w % 65536 < 32768 then (w % 65536 : Nat) else (w % 65536 : Nat) - 65536

/-! ## The SDK as seen by the driver -/

/-- One command queued on an I2C command link. -/
inductive I2cCmd where
  /-- Command `i2c_master_start`. -/
  | start
  /-- Command `i2c_master_write_byte(cmd, byte, ack_en)`. -/
  | writeByte (byte : Nat) (ackEn : Nat)
  /-- Command `i2c_master_write(cmd, data, data_len, ack_en)`, with the
  `data_len` bytes of `data`. -/
  | write (data : List Nat) (ackEn : Nat)
  /-- Command `i2c_master_read(cmd, data, data_len, ack)`. -/
  | read (len : Nat) (ack : Nat)
  /-- Command `i2c_master_stop`. -/
  | stop
  deriving DecidableEq, Repr

/-- The messages the program logs with `ESP_LOGI`. -/
inductive LogMsg where
  /-- Line 101, "Unable to read data from ADS1115!". -/
  | unableToReadData
  /-- Line 165, "Configuration Bits: %d". -/
  | configurationBits (config : Nat)
  /-- Line 183, "ADS1115 Initialised!". -/
  | initialised
  /-- Line 194, "ADS1115 Read!". -/
  | adsRead
  /-- Line 196, "Voltage = %d.%d V" with its two arguments. -/
  | voltage (i f : Nat)
  /-- Line 201, "Unable To Read ADS1115". -/
  | unableToRead
  deriving DecidableEq, Repr

/-- A call the program makes into the SDK. -/
inductive Event where
  /-- Call `vTaskDelay(ticks)`. -/
  | vTaskDelay (ticks : Nat)
  /-- Call `i2c_driver_install(port, I2C_MODE_MASTER)`. -/
  | i2c_driver_install (port : Nat)
  /-- Call `i2c_param_config(port, &conf)`. -/
  | i2c_param_config (port : Nat)
  /-- Call `i2c_driver_delete(port)`. -/
  | i2c_driver_delete (port : Nat)
  /-- Call `i2c_master_cmd_begin(port, cmd, ticks)`: one bus transaction
  executing the queued commands `cmds`. -/
  | i2c_master_cmd_begin (port : Nat) (cmds : List I2cCmd) (ticks : Nat)
  /-- Call `ESP_LOGI(TAG, ...)`. -/
  | log (msg : LogMsg)
  deriving DecidableEq, Repr

/-- The behaviour of everything outside the program.  Each field is applied
to the history of events up to and including the call it answers. -/
structure Env where
  /-- The `esp_err_t` the last call of the history returns. -/
  status : List Event → Int
  /-- Byte `i` the last transaction of the history delivers into its read
  buffer. -/
  rx : List Event → Nat → Nat
  /-- Byte `i` found in an uninitialised stack buffer allocated after the
  history. -/
  uninit : List Event → Nat → Nat

/-- Build parameters that come from SDK headers outside the sources. -/
structure Sdk where
  /-- The constant `portTICK_RATE_MS` / `portTICK_PERIOD_MS`. -/
  portTICK_PERIOD_MS : Nat

/-- Result of a function that returns a status. -/
structure Ret where
  status : Int
  trace : List Event

/-- Result of `data_read`: status, the value stored through `data`, trace. -/
structure ReadRet where
  status : Int
  data : Nat
  trace : List Event

/-- Result of a function inside which `ESP_ERROR_CHECK` may stop the
program: `status` is `none` when it did. -/
structure CheckedRet where
  status : Option Int
  trace : List Event

/-- Observation of a run of the sampling task. -/
structure Run where
  /-- Whether the run ended in `abort()`. -/
  aborted : Bool
  trace : List Event

/-! ## Register transactions (lines 73-135) -/

/-- Commands queued by `i2c_master_ads1115_write` (lines 77-81). -/
def writeCmds (reg_address : Nat) (data : List Nat) (data_len : Nat) : List I2cCmd :=
  [ I2cCmd.start,
    I2cCmd.writeByte ((ADS1115_GND <<< 1) ||| WRITE_BIT) ACK_CHECK_EN,
    I2cCmd.writeByte reg_address ACK_CHECK_EN,
    I2cCmd.write (data.take data_len) ACK_CHECK_EN,
    I2cCmd.stop ]

/-- Commands queued first by `i2c_master_ads1115_read` (lines 92-95): the
register pointer is set. -/
def pointerCmds (reg_address : Nat) : List I2cCmd :=
  [ I2cCmd.start,
    I2cCmd.writeByte ((ADS1115_GND <<< 1) ||| WRITE_BIT) ACK_CHECK_EN,
    I2cCmd.writeByte reg_address ACK_CHECK_EN,
    I2cCmd.stop ]

/-- Commands queued second by `i2c_master_ads1115_read` (lines 106-109): the
data bytes are read. -/
def readCmds (data_len : Nat) : List I2cCmd :=
  [ I2cCmd.start,
    I2cCmd.writeByte ((ADS1115_GND <<< 1) ||| READ_BIT) ACK_CHECK_EN,
    I2cCmd.read data_len LAST_NACK_VAL,
    I2cCmd.stop ]

/-- The call `i2c_master_cmd_begin(i2c_num, cmd, 1000 / portTICK_RATE_MS)` of
line 82, on the commands of `i2c_master_ads1115_write`. -/
def writeTxn (sdk : Sdk) (i2c_num reg_address : Nat) (data : List Nat)
    (data_len : Nat) : Event :=
  Event.i2c_master_cmd_begin i2c_num (writeCmds reg_address data data_len)
    (1000 / sdk.portTICK_PERIOD_MS)

/-- The call `i2c_master_cmd_begin` of line 96, on the pointer-set
commands. -/
def pointerTxn (sdk : Sdk) (i2c_num reg_address : Nat) : Event :=
  Event.i2c_master_cmd_begin i2c_num (pointerCmds reg_address)
    (1000 / sdk.portTICK_PERIOD_MS)

/-- The call `i2c_master_cmd_begin` of line 110, on the data-read
commands. -/
def readTxn (sdk : Sdk) (i2c_num data_len : Nat) : Event :=
  Event.i2c_master_cmd_begin i2c_num (readCmds data_len)
    (1000 / sdk.portTICK_PERIOD_MS)

/-- Function `i2c_master_ads1115_write` (lines 73-86). -/
def i2c_master_ads1115_write (sdk : Sdk) (env : Env) (i2c_num reg_address : Nat)
    (data : List Nat) (data_len : Nat) (t : List Event) : Ret :=
  let t1 := t ++ [writeTxn sdk i2c_num reg_address data data_len]
  { status := env.status t1, trace := t1 }

/-- Function `i2c_master_ads1115_read` (lines 88-114); the second component
is the buffer `data` points to when the function returns. -/
def i2c_master_ads1115_read (sdk : Sdk) (env : Env) (i2c_num reg_address : Nat)
    (data : List Nat) (data_len : Nat) (t : List Event) : Ret × List Nat :=
  let t1 := t ++ [pointerTxn sdk i2c_num reg_address]
  let ret := env.status t1
  if ret ≠ ESP_OK then
    ({ status := ret, trace := t1 ++ [Event.log LogMsg.unableToReadData] }, data)
  else
    let t2 := t1 ++ [readTxn sdk i2c_num data_len]
    ({ status := env.status t2, trace := t2 },
      (List.range data_len).map (fun i => env.rx t2 i % 256) ++ data.drop data_len)

/-- Function `data_write` (lines 116-125). -/
def data_write (sdk : Sdk) (env : Env) (i2c_num reg_address data : Nat)
    (t : List Event) : Ret :=
  let buf := encode16 data
  i2c_master_ads1115_write sdk env i2c_num reg_address buf 2 t

/-- Function `data_read` (lines 127-135); `buf` starts uninitialised. -/
def data_read (sdk : Sdk) (env : Env) (i2c_num reg_address : Nat)
    (t : List Event) : ReadRet :=
  let buf := [env.uninit t 0 % 256, env.uninit t 1 % 256]
  let r := i2c_master_ads1115_read sdk env i2c_num reg_address buf 2 t
  { status := r.1.status, data := decode16 r.2, trace := r.1.trace }

/-! ## Initialisation and the sampling task (lines 58-71 and 137-206) -/

/-- Modelled from the spec: the macro `ESP_ERROR_CHECK` of the SDK header
`esp_err.h`, which is not among the sources.  A failure during
initialisation is fatal and is not retried: the check lets the program go
on only when the status `rc` is `ESP_OK` and otherwise stops it in
`abort()`.  The result says whether the program goes on. -/
def errorCheckPasses (rc : Int) : Bool :=
  decide (rc = ESP_OK)

/-- Function `i2c_master_init` (lines 58-71). -/
def i2c_master_init (env : Env) (t : List Event) : CheckedRet :=
  let t1 := t ++ [Event.i2c_driver_install I2C_MASTER_NUM]
  if errorCheckPasses (env.status t1) then
    let t2 := t1 ++ [Event.i2c_param_config I2C_MASTER_NUM]
    if errorCheckPasses (env.status t2) then
      { status := some ESP_OK, trace := t2 }
    else
      { status := none, trace := t2 }
  else
    { status := none, trace := t1 }

/-- Function `i2c_master_ads1115_init` (lines 137-171); the status returned
by `i2c_master_init` is discarded at line 140. -/
def i2c_master_ads1115_init (sdk : Sdk) (env : Env) (i2c_num : Nat)
    (t : List Event) : CheckedRet :=
  let t0 := t ++ [Event.vTaskDelay (100 / sdk.portTICK_PERIOD_MS)]
  let r1 := i2c_master_init env t0
  match r1.status with
  | none => { status := none, trace := r1.trace }
  | some _ =>
    let config := packConfig defaultConf
    let t2 := r1.trace ++ [Event.log (LogMsg.configurationBits config)]
    let w := data_write sdk env i2c_num ADS1115_CONFIG config t2
    if errorCheckPasses w.status then
      { status := some ESP_OK, trace := w.trace }
    else
      { status := none, trace := w.trace }

/-- One pass through the body of `while(1)` in `i2c_task` (lines 191-202). -/
def loopBody (sdk : Sdk) (env : Env) (t : List Event) : List Event :=
  let r := data_read sdk env I2C_MASTER_NUM ADS1115_CONV t
  if r.status = ESP_OK then
    r.trace ++ [ Event.log LogMsg.adsRead,
                 Event.log (LogMsg.voltage (logInt r.data) (logFrac r.data)),
                 Event.vTaskDelay (2000 / sdk.portTICK_PERIOD_MS) ]
  else
    r.trace ++ [Event.log LogMsg.unableToRead]

/-- The first `n` passes of the `while(1)` loop of `i2c_task`. -/
def loop (sdk : Sdk) (env : Env) : Nat → List Event → List Event
  | 0, t => t
  | n + 1, t => loop sdk env n (loopBody sdk env t)

/-- Function `i2c_task` (lines 173-206), observed for the first `n` passes
of its endless loop. -/
def i2c_task (sdk : Sdk) (env : Env) (n : Nat) : Run :=
  let r := i2c_master_ads1115_init sdk env I2C_MASTER_NUM []
  match r.status with
  | none => { aborted := true, trace := r.trace }
  | some ret =>
    let t :=
      if ret = ESP_OK then r.trace ++ [Event.log LogMsg.initialised]
      else r.trace ++ [Event.i2c_driver_delete I2C_MASTER_NUM]
    { aborted := false, trace := loop sdk env n t }

/-! ## Observations on traces -/

/-- Whether an event is a bus transaction. -/
def Event.isTransaction : Event → Bool
  | Event.i2c_master_cmd_begin _ _ _ => true
  | _ => false

/-- Whether an event is a delay. -/
def Event.isDelay : Event → Bool
  | Event.vTaskDelay _ => true
  | _ => false

/-- Whether an event logs a voltage. -/
def Event.isVoltage : Event → Bool
  | Event.log (LogMsg.voltage _ _) => true
  | _ => false

/-- The first transaction of `data_read` on the conversion register: the
pointer is set to register 0x00. -/
def convPointerTxn (sdk : Sdk) : Event :=
  pointerTxn sdk I2C_MASTER_NUM ADS1115_CONV

/-- The second transaction of `data_read`: two bytes are read. -/
def convReadTxn (sdk : Sdk) : Event :=
  readTxn sdk I2C_MASTER_NUM 2

/-- The events of `i2c_master_ads1115_init` that come before the write to
the configuration register, when the bus set-up goes through. -/
def initSetup (sdk : Sdk) : List Event :=
  [ Event.vTaskDelay (100 / sdk.portTICK_PERIOD_MS),
    Event.i2c_driver_install I2C_MASTER_NUM,
    Event.i2c_param_config I2C_MASTER_NUM,
    Event.log (LogMsg.configurationBits (packConfig defaultConf)) ]

/-- The transaction of line 168: the configuration word is written to the
configuration register. -/
def configWriteTxn (sdk : Sdk) : Event :=
  writeTxn sdk I2C_MASTER_NUM ADS1115_CONFIG (encode16 (packConfig defaultConf)) 2

/-! ## Concrete builds and environments -/

/-- A build with a 10 ms tick. -/
def sdkAssert : Sdk :=
  { portTICK_PERIOD_MS := 10 }

/-- An environment in which every call succeeds and every read delivers the
bytes 0x10 0x00. -/
def envOk : Env :=
  { status := fun _ => 0,
    rx := fun _ i => if i = 0 then 0x10 else 0x00,
    uninit := fun _ _ => 0 }

/-- An environment in which every call fails with `ESP_FAIL` (-1). -/
def envFail : Env :=
  { status := fun _ => -1,
    rx := fun _ _ => 0,
    uninit := fun _ _ => 0 }

/-- An environment in which exactly the bus transactions that write a
register fail with `ESP_FAIL` (-1); every other call succeeds and reads
deliver zero bytes. -/
def envWriteFails : Env :=
  { status := fun h =>
      match h.getLast? with
      | some (Event.i2c_master_cmd_begin _ [_, _, _, I2cCmd.write _ _, _] _) => -1
      | _ => 0,
    rx := fun _ _ => 0,
    uninit := fun _ _ => 0 }

/-! ## Helper lemmas on shifts and masks -/

/-- A shift followed by an OR with a value below the shift width is
multiply-and-add. -/
theorem shl_or_eq (a b k : Nat) (hb : b < 2 ^ k) :
    (a <<< k) ||| b = a * 2 ^ k + b := by
  rw [Nat.shiftLeft_eq, Nat.mul_comm, ← Nat.mul_add_lt_is_or hb]

/-- The integer part of the voltage is a division of the raw word. -/
theorem floor_voltage (d : Nat) : ⌊voltage d⌋₊ = d / 8000 := by
  have h : voltage d = (d : ℚ) / ((8000 : ℕ) : ℚ) := by
    unfold voltage; push_cast; ring
  rw [h, Nat.floor_div_eq_div]

/-- The voltage in hundredths, truncated, is a division of the raw word. -/
theorem floor_voltage_hundred (d : Nat) : ⌊voltage d * 100⌋₊ = d / 80 := by
  have h : voltage d * 100 = (d : ℚ) / ((80 : ℕ) : ℚ) := by
    unfold voltage; push_cast; ring
  rw [h, Nat.floor_div_eq_div]

/-- The first logged number in integer arithmetic. -/
theorem logInt_eq (d : Nat) : logInt d = d / 8000 % 65536 := by
  rw [logInt, floor_voltage]

/-- The second logged number in integer arithmetic. -/
theorem logFrac_eq (d : Nat) : logFrac d = d / 80 % 65536 % 100 := by
  rw [logFrac, floor_voltage_hundred]

/-- Later passes of the loop only extend the trace: unfolding at the end. -/
theorem loop_succ_end (sdk : Sdk) (env : Env) (n : Nat) (t : List Event) :
    loop sdk env (n + 1) t = loopBody sdk env (loop sdk env n t) := by
  induction n generalizing t with
  | zero => rfl
  | succ k ih =>
    show loop sdk env (k + 1) (loopBody sdk env t) = _
    rw [ih (loopBody sdk env t)]
    rfl

/-- What `i2c_master_ads1115_read` does when the pointer-set transaction
fails. -/
theorem read_of_pointer_fail (sdk : Sdk) (env : Env) (i2c_num reg : Nat)
    (data : List Nat) (data_len : Nat) (t : List Event)
    (h : env.status (t ++ [pointerTxn sdk i2c_num reg]) ≠ ESP_OK) :
    i2c_master_ads1115_read sdk env i2c_num reg data data_len t
      = ({ status := env.status (t ++ [pointerTxn sdk i2c_num reg]),
           trace := t ++ [pointerTxn sdk i2c_num reg]
             ++ [Event.log LogMsg.unableToReadData] }, data) := by
  unfold i2c_master_ads1115_read
  exact if_pos h

/-- What `i2c_master_ads1115_read` does when the pointer-set transaction
succeeds. -/
theorem read_of_pointer_ok (sdk : Sdk) (env : Env) (i2c_num reg : Nat)
    (data : List Nat) (data_len : Nat) (t : List Event)
    (h : env.status (t ++ [pointerTxn sdk i2c_num reg]) = ESP_OK) :
    i2c_master_ads1115_read sdk env i2c_num reg data data_len t
      = ({ status := env.status
             (t ++ [pointerTxn sdk i2c_num reg] ++ [readTxn sdk i2c_num data_len]),
           trace := t ++ [pointerTxn sdk i2c_num reg] ++ [readTxn sdk i2c_num data_len] },
         (List.range data_len).map
             (fun i => env.rx
               (t ++ [pointerTxn sdk i2c_num reg] ++ [readTxn sdk i2c_num data_len]) i % 256)
           ++ data.drop data_len) := by
  unfold i2c_master_ads1115_read
  exact if_neg (not_not.mpr h)

/-- The status of `data_read` is the status of the pointer-set transaction
when that one fails. -/
theorem data_read_of_pointer_fail (sdk : Sdk) (env : Env) (t : List Event)
    (h : env.status (t ++ [convPointerTxn sdk]) ≠ ESP_OK) :
    (data_read sdk env I2C_MASTER_NUM ADS1115_CONV t).status
        = env.status (t ++ [convPointerTxn sdk])
      ∧ (data_read sdk env I2C_MASTER_NUM ADS1115_CONV t).trace
        = t ++ [convPointerTxn sdk, Event.log LogMsg.unableToReadData] := by
  unfold data_read
  simp only []
  rw [read_of_pointer_fail sdk env I2C_MASTER_NUM ADS1115_CONV _ 2 t h]
  exact ⟨rfl, by simp [convPointerTxn]⟩

/-- The status of `data_read` is the status of the data transaction when the
pointer-set transaction succeeds. -/
theorem data_read_of_pointer_ok (sdk : Sdk) (env : Env) (t : List Event)
    (h : env.status (t ++ [convPointerTxn sdk]) = ESP_OK) :
    (data_read sdk env I2C_MASTER_NUM ADS1115_CONV t).status
        = env.status (t ++ [convPointerTxn sdk, convReadTxn sdk])
      ∧ (data_read sdk env I2C_MASTER_NUM ADS1115_CONV t).trace
        = t ++ [convPointerTxn sdk, convReadTxn sdk] := by
  unfold data_read
  simp only []
  rw [read_of_pointer_ok sdk env I2C_MASTER_NUM ADS1115_CONV _ 2 t h]
  exact ⟨by simp [convPointerTxn, convReadTxn], by simp [convPointerTxn, convReadTxn]⟩

/-- The word `data_read` stores when the pointer-set transaction succeeds:
the two bytes the data transaction delivers, decoded. -/
theorem data_read_data_of_pointer_ok (sdk : Sdk) (env : Env) (t : List Event)
    (h : env.status (t ++ [convPointerTxn sdk]) = ESP_OK) :
    (data_read sdk env I2C_MASTER_NUM ADS1115_CONV t).data
      = decode16 [ env.rx (t ++ [convPointerTxn sdk, convReadTxn sdk]) 0 % 256,
                   env.rx (t ++ [convPointerTxn sdk, convReadTxn sdk]) 1 % 256 ] := by
  unfold data_read
  simp only []
  rw [read_of_pointer_ok sdk env I2C_MASTER_NUM ADS1115_CONV _ 2 t h]
  simp [convPointerTxn, convReadTxn, List.range_succ]

/-- The three shapes a pass of the loop can take. -/
theorem loopBody_cases (sdk : Sdk) (env : Env) (t : List Event) :
    ((data_read sdk env I2C_MASTER_NUM ADS1115_CONV t).status ≠ ESP_OK
      ∧ (loopBody sdk env t
            = t ++ [convPointerTxn sdk, Event.log LogMsg.unableToReadData,
                Event.log LogMsg.unableToRead]
          ∨ loopBody sdk env t
            = t ++ [convPointerTxn sdk, convReadTxn sdk, Event.log LogMsg.unableToRead]))
    ∨ ((data_read sdk env I2C_MASTER_NUM ADS1115_CONV t).status = ESP_OK
      ∧ loopBody sdk env t
          = t ++ [ convPointerTxn sdk, convReadTxn sdk, Event.log LogMsg.adsRead,
              Event.log (LogMsg.voltage
                (logInt (data_read sdk env I2C_MASTER_NUM ADS1115_CONV t).data)
                (logFrac (data_read sdk env I2C_MASTER_NUM ADS1115_CONV t).data)),
              Event.vTaskDelay (2000 / sdk.portTICK_PERIOD_MS) ]) := by
  by_cases hs : (data_read sdk env I2C_MASTER_NUM ADS1115_CONV t).status = ESP_OK
  · right
    refine ⟨hs, ?_⟩
    by_cases hp : env.status (t ++ [convPointerTxn sdk]) = ESP_OK
    · have ht := (data_read_of_pointer_ok sdk env t hp).2
      unfold loopBody
      simp only []
      rw [if_pos hs, ht]
      simp
    · have hst := (data_read_of_pointer_fail sdk env t hp).1
      rw [hst] at hs
      exact absurd hs hp
  · left
    refine ⟨hs, ?_⟩
    by_cases hp : env.status (t ++ [convPointerTxn sdk]) = ESP_OK
    · right
      have ht := (data_read_of_pointer_ok sdk env t hp).2
      unfold loopBody
      simp only []
      rw [if_neg hs, ht]
      simp
    · left
      have ht := (data_read_of_pointer_fail sdk env t hp).2
      unfold loopBody
      simp only []
      rw [if_neg hs, ht]
      simp

/-- Every pass of the loop starts with the pointer-set transaction on the
conversion register. -/
theorem loopBody_starts_with_read (sdk : Sdk) (env : Env) (t : List Event) :
    ∃ rest, loopBody sdk env t = t ++ convPointerTxn sdk :: rest := by
  rcases loopBody_cases sdk env t with ⟨_, h | h⟩ | ⟨_, h⟩
  · exact ⟨_, h⟩
  · exact ⟨_, h⟩
  · exact ⟨_, h⟩

/-- A pass of the loop whose read fails adds one pointer-set transaction and
neither a delay nor a voltage. -/
theorem loopBody_of_fail (sdk : Sdk) (env : Env) (t : List Event)
    (h : (data_read sdk env I2C_MASTER_NUM ADS1115_CONV t).status ≠ ESP_OK) :
    ∃ s, loopBody sdk env t = t ++ s
      ∧ (∀ e ∈ s, e.isDelay = false ∧ e.isVoltage = false)
      ∧ s.count (convPointerTxn sdk) = 1 := by
  rcases loopBody_cases sdk env t with ⟨_, h1 | h1⟩ | ⟨h2, _⟩
  · refine ⟨_, h1, ?_, ?_⟩
    · intro e he
      simp only [List.mem_cons, List.mem_singleton, List.not_mem_nil, or_false] at he
      rcases he with rfl | rfl | rfl <;> exact ⟨rfl, rfl⟩
    · simp [convPointerTxn, pointerTxn]
  · refine ⟨_, h1, ?_, ?_⟩
    · intro e he
      simp only [List.mem_cons, List.mem_singleton, List.not_mem_nil, or_false] at he
      rcases he with rfl | rfl | rfl <;> exact ⟨rfl, rfl⟩
    · simp [convPointerTxn, convReadTxn, pointerTxn, readTxn, pointerCmds, readCmds]
  · exact absurd h2 h

/-- After `n` passes whose reads all fail, the loop has added `n` pointer-set
transactions on the conversion register, no delay and no voltage. -/
theorem loop_of_failures (sdk : Sdk) (env : Env) (t : List Event) (n : Nat)
    (h : ∀ k, k < n →
      (data_read sdk env I2C_MASTER_NUM ADS1115_CONV (loop sdk env k t)).status ≠ ESP_OK) :
    ∃ s, loop sdk env n t = t ++ s
      ∧ (∀ e ∈ s, e.isDelay = false ∧ e.isVoltage = false)
      ∧ s.count (convPointerTxn sdk) = n := by
  induction n with
  | zero => exact ⟨[], by simp [loop], by simp, by simp⟩
  | succ m ih =>
    obtain ⟨s, hs, hno, hcount⟩ := ih (fun k hk => h k (Nat.lt_succ_of_lt hk))
    obtain ⟨s1, hs1, hno1, hcount1⟩ :=
      loopBody_of_fail sdk env (loop sdk env m t) (h m (Nat.lt_succ_self m))
    refine ⟨s ++ s1, ?_, ?_, ?_⟩
    · rw [loop_succ_end, hs1, hs, List.append_assoc]
    · intro e he
      rcases List.mem_append.mp he with h1 | h1
      · exact hno e h1
      · exact hno1 e h1
    · rw [List.count_append, hcount, hcount1]

/-- The run of the task up to and including the initialisation, by the
statuses of the three checked calls. -/
theorem task_of_abort (sdk : Sdk) (env : Env) (n : Nat) :
    (env.status [Event.vTaskDelay (100 / sdk.portTICK_PERIOD_MS),
          Event.i2c_driver_install I2C_MASTER_NUM] ≠ ESP_OK
        ∧ (i2c_task sdk env n).trace
          = [Event.vTaskDelay (100 / sdk.portTICK_PERIOD_MS),
              Event.i2c_driver_install I2C_MASTER_NUM])
    ∨ (env.status [Event.vTaskDelay (100 / sdk.portTICK_PERIOD_MS),
          Event.i2c_driver_install I2C_MASTER_NUM,
          Event.i2c_param_config I2C_MASTER_NUM] ≠ ESP_OK
        ∧ (i2c_task sdk env n).trace
          = [Event.vTaskDelay (100 / sdk.portTICK_PERIOD_MS),
              Event.i2c_driver_install I2C_MASTER_NUM,
              Event.i2c_param_config I2C_MASTER_NUM])
    ∨ (env.status (initSetup sdk ++ [configWriteTxn sdk]) ≠ ESP_OK
        ∧ (i2c_task sdk env n).aborted = true
        ∧ (i2c_task sdk env n).trace = initSetup sdk ++ [configWriteTxn sdk])
    ∨ (env.status (initSetup sdk ++ [configWriteTxn sdk]) = ESP_OK
        ∧ (i2c_task sdk env n).aborted = false
        ∧ (i2c_task sdk env n).trace
          = loop sdk env n
              (initSetup sdk ++ [configWriteTxn sdk, Event.log LogMsg.initialised])) := by
  by_cases h1 : env.status [Event.vTaskDelay (100 / sdk.portTICK_PERIOD_MS),
      Event.i2c_driver_install I2C_MASTER_NUM] = ESP_OK
  · by_cases h2 : env.status [Event.vTaskDelay (100 / sdk.portTICK_PERIOD_MS),
        Event.i2c_driver_install I2C_MASTER_NUM,
        Event.i2c_param_config I2C_MASTER_NUM] = ESP_OK
    · by_cases h3 : env.status (initSetup sdk ++ [configWriteTxn sdk]) = ESP_OK
      · right; right; right
        refine ⟨h3, ?_⟩
        simp only [initSetup, configWriteTxn, List.cons_append, List.nil_append] at h3
        simp [i2c_task, i2c_master_ads1115_init, i2c_master_init, errorCheckPasses,
          data_write, i2c_master_ads1115_write, initSetup, configWriteTxn, h1, h2, h3]
      · right; right; left
        refine ⟨h3, ?_⟩
        simp only [initSetup, configWriteTxn, List.cons_append, List.nil_append] at h3
        simp [i2c_task, i2c_master_ads1115_init, i2c_master_init, errorCheckPasses,
          data_write, i2c_master_ads1115_write, initSetup, configWriteTxn, h1, h2, h3]
    · right; left
      refine ⟨h2, ?_⟩
      simp [i2c_task, i2c_master_ads1115_init, i2c_master_init, errorCheckPasses,
        h1, h2]
  · left
    refine ⟨h1, ?_⟩
    simp [i2c_task, i2c_master_ads1115_init, i2c_master_init, errorCheckPasses, h1]

/-! ## Register codec -/

/-- C1: for every 16-bit value `v`, decoding with the expression of
`data_read` the two bytes `data_write` puts in its buffer for `v` gives `v`
back. -/
theorem codec_roundtrip (v : Nat) (hv : v < 65536) : decode16 (encode16 v) = v := by
  have h2 : v % 256 < 2 ^ 8 := by omega
  simp only [decode16, encode16, List.getD_cons_zero, List.getD_cons_succ,
    Nat.shiftRight_zero]
  rw [show (0xFF : Nat) = 2 ^ 8 - 1 from rfl, Nat.and_pow_two_sub_one_eq_mod,
    Nat.and_pow_two_sub_one_eq_mod, Nat.shiftRight_eq_div_pow, shl_or_eq _ _ _ h2]
  omega

/-- Instance of `codec_roundtrip` at the value 0xABCD. -/
theorem codec_roundtrip_witness :
    0xABCD < 65536 ∧ decode16 (encode16 0xABCD) = 0xABCD :=
  ⟨by decide, codec_roundtrip 0xABCD (by decide)⟩

/-! ## Configuration word -/

/-- C2: when each of the nine sub-fields fits its declared width, the
shift-and-OR packing of `i2c_master_ads1115_init` yields
`OS*2^15 + MUX*2^12 + PGA*2^9 + MODE*2^8 + DR*2^5 + COMP_MODE*2^4 +
COMP_POL*2^3 + COMP_LAT*2^2 + COMP_QUE`, a value below `2^16` (no bit is
lost to the 16-bit truncations); the defaults of the source pack to 0x4282,
the bytes 0x42 0x82 on the bus. -/
theorem packConfig_layout (c : ADS1115_CONF)
    (hOS : c.OS < 2) (hMUX : c.MUX < 8) (hPGA : c.PGA < 8) (hMODE : c.MODE < 2)
    (hDR : c.DR < 8) (hCM : c.COMP_MODE < 2) (hCP : c.COMP_POL < 2)
    (hCL : c.COMP_LAT < 2) (hCQ : c.COMP_QUE < 4) :
    packConfig c = c.OS * 2 ^ 15 + c.MUX * 2 ^ 12 + c.PGA * 2 ^ 9 + c.MODE * 2 ^ 8
        + c.DR * 2 ^ 5 + c.COMP_MODE * 2 ^ 4 + c.COMP_POL * 2 ^ 3
        + c.COMP_LAT * 2 ^ 2 + c.COMP_QUE
      ∧ packConfig c < 2 ^ 16
      ∧ packConfig defaultConf = 0x4282
      ∧ encode16 (packConfig defaultConf) = [0x42, 0x82] := by
  have key : packConfig c = c.OS * 2 ^ 15 + c.MUX * 2 ^ 12 + c.PGA * 2 ^ 9
      + c.MODE * 2 ^ 8 + c.DR * 2 ^ 5 + c.COMP_MODE * 2 ^ 4 + c.COMP_POL * 2 ^ 3
      + c.COMP_LAT * 2 ^ 2 + c.COMP_QUE := by
    unfold packConfig
    simp only []
    rw [shl_or_eq c.OS c.MUX 3 (by omega)]
    rw [shl_or_eq _ c.PGA 3 (by omega)]
    rw [shl_or_eq _ c.MODE 1 (by omega)]
    rw [shl_or_eq _ c.DR 3 (by omega)]
    rw [shl_or_eq _ c.COMP_MODE 1 (by omega)]
    rw [shl_or_eq _ c.COMP_POL 1 (by omega)]
    rw [shl_or_eq _ c.COMP_LAT 1 (by omega)]
    rw [shl_or_eq _ c.COMP_QUE 2 (by omega)]
    omega
  refine ⟨key, ?_, by decide, by decide⟩
  rw [key]
  omega

/-- Instance of `packConfig_layout` at the defaults of the source. -/
theorem packConfig_layout_witness :
    packConfig defaultConf = 0 * 2 ^ 15 + 4 * 2 ^ 12 + 1 * 2 ^ 9 + 0 * 2 ^ 8
        + 4 * 2 ^ 5 + 0 * 2 ^ 4 + 0 * 2 ^ 3 + 0 * 2 ^ 2 + 2
      ∧ packConfig defaultConf < 2 ^ 16 :=
  have h := packConfig_layout defaultConf (by decide) (by decide) (by decide)
    (by decide) (by decide) (by decide) (by decide) (by decide) (by decide)
  ⟨h.1, h.2.1⟩

/-- C9: the packing neither rejects nor masks an oversized sub-field.  With
`PGA = 8` (one more than its 3 bits hold) and every other field at its
default, in range, the packing still returns a 16-bit word, 0x5082, and
bits 14..12 of that word hold 5 although `MUX = 4` was supplied. -/
theorem packConfig_oversized_PGA :
    (confOversizedPGA.OS < 2 ∧ confOversizedPGA.MUX < 8 ∧ ¬ confOversizedPGA.PGA < 8
        ∧ confOversizedPGA.MODE < 2 ∧ confOversizedPGA.DR < 8
        ∧ confOversizedPGA.COMP_MODE < 2 ∧ confOversizedPGA.COMP_POL < 2
        ∧ confOversizedPGA.COMP_LAT < 2 ∧ confOversizedPGA.COMP_QUE < 4)
      ∧ packConfig confOversizedPGA = 0x5082
      ∧ packConfig confOversizedPGA < 2 ^ 16
      ∧ confOversizedPGA.MUX = 4
      ∧ packConfig confOversizedPGA / 2 ^ 12 % 8 = 5 := by
  decide

/-! ## Sample-to-voltage conversion -/

/-- C3, refuted as stated: the word 0x8000 is -32768 as a signed quantity,
but the loop converts it to +4.096 V, not to -4.096 V; the voltage is not
negative. -/
theorem voltage_signed_counterexample :
    toSigned16 0x8000 = -32768
      ∧ voltage 0x8000 = 4.096
      ∧ voltage 0x8000 ≠ (toSigned16 0x8000 : ℚ) * (4.096 / 2 ^ 15)
      ∧ ¬ voltage 0x8000 < 0 := by
  have hs : toSigned16 0x8000 = -32768 := by decide
  refine ⟨hs, ?_, ?_, ?_⟩
  · norm_num [voltage]
  · rw [hs]; norm_num [voltage]
  · norm_num [voltage]

/-- C3, amended: for every 16-bit word `w` the loop computes the voltage
`w * (4.096 / 2^15)` exactly, with `w` taken as an unsigned number.  It is
never negative; for words up to 0x7FFF it agrees with the signed reading,
and for words 0x8000..0xFFFF it lies in `[4.096, 8.192)`, off the signed
reading by 8.192. -/
theorem voltage_unsigned (w : Nat) (hw : w < 65536) :
    voltage w = (w : ℚ) * (4.096 / 2 ^ 15)
      ∧ 0 ≤ voltage w
      ∧ (w < 32768 → voltage w = (toSigned16 w : ℚ) * (4.096 / 2 ^ 15))
      ∧ (32768 ≤ w → 4.096 ≤ voltage w ∧ voltage w < 8.192
          ∧ voltage w = (toSigned16 w : ℚ) * (4.096 / 2 ^ 15) + 8.192) := by
  have hv : voltage w = (w : ℚ) * (4.096 / 2 ^ 15) := by
    unfold voltage; norm_num
  have hq : (w : ℚ) < 65536 := by exact_mod_cast hw
  have h0 : (0 : ℚ) ≤ (w : ℚ) := Nat.cast_nonneg w
  refine ⟨hv, ?_, ?_, ?_⟩
  · rw [hv]; positivity
  · intro hlt
    have hs : toSigned16 w = (w : Int) := by
      unfold toSigned16
      rw [Nat.mod_eq_of_lt hw, if_pos hlt]
    rw [hv, hs]; norm_cast
  · intro hge
    have hs : toSigned16 w = (w : Int) - 65536 := by
      unfold toSigned16
      rw [Nat.mod_eq_of_lt hw, if_neg (by omega)]
    have hq2 : (32768 : ℚ) ≤ (w : ℚ) := by exact_mod_cast hge
    refine ⟨?_, ?_, ?_⟩
    · rw [hv]; norm_num; linarith
    · rw [hv]; norm_num; linarith
    · rw [hv, hs]; push_cast; norm_num; ring

/-- Instance of `voltage_unsigned` at the word 0xFFFF. -/
theorem voltage_unsigned_witness :
    0xFFFF < 65536 ∧ voltage 0xFFFF = (0xFFFF : ℚ) * (4.096 / 2 ^ 15)
      ∧ 4.096 ≤ voltage 0xFFFF :=
  have h := voltage_unsigned 0xFFFF (by decide)
  ⟨by decide, by simpa using h.1, (h.2.2.2 (by decide)).1⟩

/-- C4: at the test vectors the conversion of the loop gives the stated
voltages.  From any history in which both transactions of `data_read` on
the conversion register succeed: when the bus delivers the bytes 0x00 0x00
the word read is 0x0000 and the voltage 0; when it delivers 0x7F 0xFF the
word is 0x7FFF and the voltage `4.096 * 32767 / 32768`; when it delivers
0x10 0x00 the word is 0x1000 and the voltage exactly 0.512.  In each case
the pass of the loop logs the two numbers taken from that voltage (0 and 0,
4 and 9, 0 and 51). -/
theorem voltage_test_vectors (sdk : Sdk) (env : Env) (t : List Event)
    (hp : env.status (t ++ [convPointerTxn sdk]) = ESP_OK)
    (hr : env.status (t ++ [convPointerTxn sdk, convReadTxn sdk]) = ESP_OK) :
    (env.rx (t ++ [convPointerTxn sdk, convReadTxn sdk]) 0 = 0x00 →
      env.rx (t ++ [convPointerTxn sdk, convReadTxn sdk]) 1 = 0x00 →
      (data_read sdk env I2C_MASTER_NUM ADS1115_CONV t).data = 0x0000
        ∧ voltage (data_read sdk env I2C_MASTER_NUM ADS1115_CONV t).data = 0
        ∧ loopBody sdk env t
          = t ++ [ convPointerTxn sdk, convReadTxn sdk, Event.log LogMsg.adsRead,
              Event.log (LogMsg.voltage 0 0),
              Event.vTaskDelay (2000 / sdk.portTICK_PERIOD_MS) ])
    ∧ (env.rx (t ++ [convPointerTxn sdk, convReadTxn sdk]) 0 = 0x7F →
      env.rx (t ++ [convPointerTxn sdk, convReadTxn sdk]) 1 = 0xFF →
      (data_read sdk env I2C_MASTER_NUM ADS1115_CONV t).data = 0x7FFF
        ∧ voltage (data_read sdk env I2C_MASTER_NUM ADS1115_CONV t).data
          = 4.096 * (32767 / 32768)
        ∧ loopBody sdk env t
          = t ++ [ convPointerTxn sdk, convReadTxn sdk, Event.log LogMsg.adsRead,
              Event.log (LogMsg.voltage 4 9),
              Event.vTaskDelay (2000 / sdk.portTICK_PERIOD_MS) ])
    ∧ (env.rx (t ++ [convPointerTxn sdk, convReadTxn sdk]) 0 = 0x10 →
      env.rx (t ++ [convPointerTxn sdk, convReadTxn sdk]) 1 = 0x00 →
      (data_read sdk env I2C_MASTER_NUM ADS1115_CONV t).data = 0x1000
        ∧ voltage (data_read sdk env I2C_MASTER_NUM ADS1115_CONV t).data = 0.512
        ∧ loopBody sdk env t
          = t ++ [ convPointerTxn sdk, convReadTxn sdk, Event.log LogMsg.adsRead,
              Event.log (LogMsg.voltage 0 51),
              Event.vTaskDelay (2000 / sdk.portTICK_PERIOD_MS) ]) := by
  have hdata := data_read_data_of_pointer_ok sdk env t hp
  have hstatus : (data_read sdk env I2C_MASTER_NUM ADS1115_CONV t).status = ESP_OK := by
    rw [(data_read_of_pointer_ok sdk env t hp).1]; exact hr
  have hbody : loopBody sdk env t
      = t ++ [ convPointerTxn sdk, convReadTxn sdk, Event.log LogMsg.adsRead,
          Event.log (LogMsg.voltage
            (logInt (data_read sdk env I2C_MASTER_NUM ADS1115_CONV t).data)
            (logFrac (data_read sdk env I2C_MASTER_NUM ADS1115_CONV t).data)),
          Event.vTaskDelay (2000 / sdk.portTICK_PERIOD_MS) ] := by
    rcases loopBody_cases sdk env t with ⟨h1, _⟩ | ⟨_, h2⟩
    · exact absurd hstatus h1
    · exact h2
  refine ⟨?_, ?_, ?_⟩
  · intro h0 h1
    have hd : (data_read sdk env I2C_MASTER_NUM ADS1115_CONV t).data = 0x0000 := by
      rw [hdata, h0, h1]; decide
    refine ⟨hd, ?_, ?_⟩
    · rw [hd]; norm_num [voltage]
    · rw [hbody, hd, logInt_eq, logFrac_eq]
  · intro h0 h1
    have hd : (data_read sdk env I2C_MASTER_NUM ADS1115_CONV t).data = 0x7FFF := by
      rw [hdata, h0, h1]; decide
    refine ⟨hd, ?_, ?_⟩
    · rw [hd]; norm_num [voltage]
    · rw [hbody, hd, logInt_eq, logFrac_eq]
  · intro h0 h1
    have hd : (data_read sdk env I2C_MASTER_NUM ADS1115_CONV t).data = 0x1000 := by
      rw [hdata, h0, h1]; decide
    refine ⟨hd, ?_, ?_⟩
    · rw [hd]; norm_num [voltage]
    · rw [hbody, hd, logInt_eq, logFrac_eq]

/-- Instance of `voltage_test_vectors`: on a transport where every
transaction succeeds and every read delivers 0x10 0x00, the first pass of
the loop reads the word 0x1000, converts it to 0.512 V and logs 0 and 51. -/
theorem voltage_test_vectors_witness :
    envOk.status ([] ++ [convPointerTxn sdkAssert]) = ESP_OK
      ∧ envOk.status ([] ++ [convPointerTxn sdkAssert, convReadTxn sdkAssert]) = ESP_OK
      ∧ envOk.rx ([] ++ [convPointerTxn sdkAssert, convReadTxn sdkAssert]) 0 = 0x10
      ∧ envOk.rx ([] ++ [convPointerTxn sdkAssert, convReadTxn sdkAssert]) 1 = 0x00
      ∧ (data_read sdkAssert envOk I2C_MASTER_NUM ADS1115_CONV []).data = 0x1000
      ∧ voltage (data_read sdkAssert envOk I2C_MASTER_NUM ADS1115_CONV []).data = 0.512
      ∧ loopBody sdkAssert envOk []
          = [] ++ [ convPointerTxn sdkAssert, convReadTxn sdkAssert,
              Event.log LogMsg.adsRead, Event.log (LogMsg.voltage 0 51),
              Event.vTaskDelay (2000 / sdkAssert.portTICK_PERIOD_MS) ] :=
  have hp : envOk.status ([] ++ [convPointerTxn sdkAssert]) = ESP_OK := by decide
  have hr : envOk.status ([] ++ [convPointerTxn sdkAssert, convReadTxn sdkAssert])
      = ESP_OK := by decide
  have h0 : envOk.rx ([] ++ [convPointerTxn sdkAssert, convReadTxn sdkAssert]) 0
      = 0x10 := by decide
  have h1 : envOk.rx ([] ++ [convPointerTxn sdkAssert, convReadTxn sdkAssert]) 1
      = 0x00 := by decide
  have h := (voltage_test_vectors sdkAssert envOk [] hp hr).2.2 h0 h1
  ⟨hp, hr, h0, h1, h.1, h.2.1, h.2.2⟩

/-! ## The logged voltage text -/

/-- The two logged numbers never wrap around 16 bits and together hold the
voltage truncated to hundredths: `100 * I + F = floor (100 * v)`. -/
theorem logged_numbers (d : Nat) (hd : d < 65536) :
    ⌊voltage d * 100⌋₊ < 2 ^ 16
      ∧ logInt d = ⌊voltage d⌋₊
      ∧ logFrac d = ⌊voltage d * 100⌋₊ % 100
      ∧ 100 * logInt d + logFrac d = ⌊voltage d * 100⌋₊ := by
  rw [logInt_eq, logFrac_eq, floor_voltage, floor_voltage_hundred]
  omega

/-- C10, at the failing input: for the raw word 400 (0.05 V) the loop logs
the numbers 0 and 5, printed as the text "0.5", which reads as 0.5 while
the voltage truncated to two decimal places is 0.05. -/
theorem logged_text_drops_leading_zero :
    voltage 400 = 0.05
      ∧ logInt 400 = 0 ∧ logFrac 400 = 5
      ∧ formatVoltage (logInt 400) (logFrac 400) = "0.5"
      ∧ decimalValue (logInt 400) (logFrac 400) = 0.5
      ∧ (⌊100 * voltage 400⌋₊ : ℚ) / 100 = 0.05
      ∧ decimalValue (logInt 400) (logFrac 400) ≠ (⌊100 * voltage 400⌋₊ : ℚ) / 100 := by
  have hi : logInt 400 = 0 := by rw [logInt_eq]
  have hf : logFrac 400 = 5 := by rw [logFrac_eq]
  have hfl : ⌊100 * voltage 400⌋₊ = 5 := by
    rw [mul_comm, floor_voltage_hundred]
  have hlen : (Nat.repr 5).length = 1 := by decide
  refine ⟨by norm_num [voltage], hi, hf, ?_, ?_, ?_, ?_⟩
  · rw [hi, hf]; decide
  · rw [hi, hf]; unfold decimalValue; rw [hlen]; norm_num
  · rw [hfl]; norm_num
  · rw [hi, hf, hfl]; unfold decimalValue; rw [hlen]; norm_num

/-! ## Register transactions -/

/-- C5: in `i2c_master_ads1115_read`, if the pointer-set transaction returns
a status other than `ESP_OK`, that status is returned unchanged, the only
transaction issued is the pointer-set one (the data-read transaction is not
issued) and the buffer is left as it was; if it returns `ESP_OK`, exactly
the pointer-set and the data-read transactions are issued, in this order,
and the status of the second is returned. -/
theorem read_pointer_failure_skips_data (sdk : Sdk) (env : Env)
    (i2c_num reg : Nat) (data : List Nat) (data_len : Nat) (t : List Event) :
    (env.status (t ++ [pointerTxn sdk i2c_num reg]) ≠ ESP_OK →
      (i2c_master_ads1115_read sdk env i2c_num reg data data_len t).1.status
          = env.status (t ++ [pointerTxn sdk i2c_num reg])
        ∧ (i2c_master_ads1115_read sdk env i2c_num reg data data_len t).1.trace
          = t ++ [pointerTxn sdk i2c_num reg, Event.log LogMsg.unableToReadData]
        ∧ List.filter Event.isTransaction
            [pointerTxn sdk i2c_num reg, Event.log LogMsg.unableToReadData]
          = [pointerTxn sdk i2c_num reg]
        ∧ (i2c_master_ads1115_read sdk env i2c_num reg data data_len t).2 = data)
    ∧ (env.status (t ++ [pointerTxn sdk i2c_num reg]) = ESP_OK →
      (i2c_master_ads1115_read sdk env i2c_num reg data data_len t).1.status
          = env.status (t ++ [pointerTxn sdk i2c_num reg, readTxn sdk i2c_num data_len])
        ∧ (i2c_master_ads1115_read sdk env i2c_num reg data data_len t).1.trace
          = t ++ [pointerTxn sdk i2c_num reg, readTxn sdk i2c_num data_len]
        ∧ List.filter Event.isTransaction
            [pointerTxn sdk i2c_num reg, readTxn sdk i2c_num data_len]
          = [pointerTxn sdk i2c_num reg, readTxn sdk i2c_num data_len]) := by
  constructor
  · intro h
    rw [read_of_pointer_fail sdk env i2c_num reg data data_len t h]
    refine ⟨rfl, ?_, ?_, rfl⟩
    · simp
    · simp [pointerTxn, Event.isTransaction]
  · intro h
    rw [read_of_pointer_ok sdk env i2c_num reg data data_len t h]
    refine ⟨?_, ?_, ?_⟩
    · simp
    · simp
    · simp [pointerTxn, readTxn, Event.isTransaction]

/-- Instance of `read_pointer_failure_skips_data`: with a transport on which
every transaction fails with -1, reading the conversion register returns -1
after the pointer-set transaction alone; with one on which every transaction
succeeds, both transactions are issued. -/
theorem read_pointer_failure_skips_data_witness :
    (envFail.status ([] ++ [pointerTxn sdkAssert 0 0]) ≠ ESP_OK
      ∧ (i2c_master_ads1115_read sdkAssert envFail 0 0 [0, 0] 2 []).1.status = -1
      ∧ (i2c_master_ads1115_read sdkAssert envFail 0 0 [0, 0] 2 []).1.trace
          = [pointerTxn sdkAssert 0 0, Event.log LogMsg.unableToReadData])
    ∧ (envOk.status ([] ++ [pointerTxn sdkAssert 0 0]) = ESP_OK
      ∧ (i2c_master_ads1115_read sdkAssert envOk 0 0 [0, 0] 2 []).1.trace
          = [pointerTxn sdkAssert 0 0, readTxn sdkAssert 0 2]) :=
  have hf : envFail.status ([] ++ [pointerTxn sdkAssert 0 0]) ≠ ESP_OK := by decide
  have ho : envOk.status ([] ++ [pointerTxn sdkAssert 0 0]) = ESP_OK := by decide
  have h1 := (read_pointer_failure_skips_data sdkAssert envFail 0 0 [0, 0] 2 []).1 hf
  have h2 := (read_pointer_failure_skips_data sdkAssert envOk 0 0 [0, 0] 2 []).2 ho
  ⟨⟨hf, h1.1, h1.2.1⟩, ⟨ho, h2.2.1⟩⟩

/-! ## The sampling task -/

/-- C7: in the loop of `i2c_task`, from any history `t` (so after any number
of earlier failures): a pass whose `data_read` of the conversion register
fails adds the pointer-set transaction, then either the driver diagnostic
or the data transaction, then the task diagnostic, hence neither a voltage
nor a delay, and the pass after it starts at once with the pointer-set
transaction on register 0x00; a pass whose read succeeds logs exactly one
voltage and then delays `2000 / portTICK_PERIOD_MS` ticks.  After `n` passes
that all failed, `n` reads have been attempted, nothing was delayed or
emitted, and pass `n + 1` reads again: there is no retry limit.  Every pass,
from whatever history, starts with the pointer-set transaction on register
0x00, so that is also what follows the delay of a successful pass. -/
theorem sampling_loop_retry (sdk : Sdk) (env : Env) (t : List Event) :
    ((data_read sdk env I2C_MASTER_NUM ADS1115_CONV t).status ≠ ESP_OK →
      (loopBody sdk env t
            = t ++ [convPointerTxn sdk, Event.log LogMsg.unableToReadData,
                Event.log LogMsg.unableToRead]
          ∨ loopBody sdk env t
            = t ++ [convPointerTxn sdk, convReadTxn sdk, Event.log LogMsg.unableToRead])
        ∧ ∃ rest, loopBody sdk env (loopBody sdk env t)
            = loopBody sdk env t ++ convPointerTxn sdk :: rest)
    ∧ ((data_read sdk env I2C_MASTER_NUM ADS1115_CONV t).status = ESP_OK →
      loopBody sdk env t
          = t ++ [ convPointerTxn sdk, convReadTxn sdk, Event.log LogMsg.adsRead,
              Event.log (LogMsg.voltage
                (logInt (data_read sdk env I2C_MASTER_NUM ADS1115_CONV t).data)
                (logFrac (data_read sdk env I2C_MASTER_NUM ADS1115_CONV t).data)),
              Event.vTaskDelay (2000 / sdk.portTICK_PERIOD_MS) ])
    ∧ (∀ n, (∀ k, k < n →
          (data_read sdk env I2C_MASTER_NUM ADS1115_CONV (loop sdk env k t)).status
            ≠ ESP_OK) →
        (∃ s, loop sdk env n t = t ++ s
          ∧ (∀ e ∈ s, e.isDelay = false ∧ e.isVoltage = false)
          ∧ s.count (convPointerTxn sdk) = n)
        ∧ ∃ rest, loop sdk env (n + 1) t
            = loop sdk env n t ++ convPointerTxn sdk :: rest)
    ∧ (∀ u, ∃ rest, loopBody sdk env u = u ++ convPointerTxn sdk :: rest)
    ∧ convPointerTxn sdk
        = Event.i2c_master_cmd_begin 0
            [ I2cCmd.start, I2cCmd.writeByte 0x90 1, I2cCmd.writeByte 0x00 1,
              I2cCmd.stop ]
            (1000 / sdk.portTICK_PERIOD_MS) := by
  refine ⟨?_, ?_, ?_, loopBody_starts_with_read sdk env, rfl⟩
  · intro h
    refine ⟨?_, loopBody_starts_with_read sdk env _⟩
    rcases loopBody_cases sdk env t with ⟨_, h1⟩ | ⟨h2, _⟩
    · exact h1
    · exact absurd h2 h
  · intro h
    rcases loopBody_cases sdk env t with ⟨h1, _⟩ | ⟨_, h2⟩
    · exact absurd h h1
    · exact h2
  · intro n h
    refine ⟨loop_of_failures sdk env t n h, ?_⟩
    rw [loop_succ_end]
    exact loopBody_starts_with_read sdk env _

/-- Instance of `sampling_loop_retry`: on a transport where every
transaction fails the first pass fails and the second pass starts with a
read; on one where every transaction succeeds and delivers 0x10 0x00 the
first pass logs one voltage and delays. -/
theorem sampling_loop_retry_witness :
    ((data_read sdkAssert envFail I2C_MASTER_NUM ADS1115_CONV []).status ≠ ESP_OK
      ∧ ∃ rest, loopBody sdkAssert envFail (loopBody sdkAssert envFail [])
          = loopBody sdkAssert envFail [] ++ convPointerTxn sdkAssert :: rest)
    ∧ ((data_read sdkAssert envOk I2C_MASTER_NUM ADS1115_CONV []).status = ESP_OK
      ∧ loopBody sdkAssert envOk []
          = [] ++ [ convPointerTxn sdkAssert, convReadTxn sdkAssert,
              Event.log LogMsg.adsRead,
              Event.log (LogMsg.voltage
                (logInt (data_read sdkAssert envOk I2C_MASTER_NUM ADS1115_CONV []).data)
                (logFrac (data_read sdkAssert envOk I2C_MASTER_NUM ADS1115_CONV []).data)),
              Event.vTaskDelay (2000 / sdkAssert.portTICK_PERIOD_MS) ]) :=
  have hf : (data_read sdkAssert envFail I2C_MASTER_NUM ADS1115_CONV []).status
      ≠ ESP_OK := by decide
  have ho : (data_read sdkAssert envOk I2C_MASTER_NUM ADS1115_CONV []).status
      = ESP_OK := by decide
  ⟨⟨hf, ((sampling_loop_retry sdkAssert envFail []).1 hf).2⟩,
    ⟨ho, (sampling_loop_retry sdkAssert envOk []).2.1 ho⟩⟩

/-- C6: in every run of `i2c_task` in which the write of the configuration
register takes place and fails, the task stops for good at that write: the
run ends there, the failed write is its last event and its only bus
transaction, so no bus transaction follows it and `data_read` of the
conversion register is called zero times, however many passes of the loop
are observed. -/
theorem init_write_failure_aborts (sdk : Sdk) (env : Env) (n : Nat)
    (hrun : configWriteTxn sdk ∈ (i2c_task sdk env n).trace)
    (hfail : env.status (initSetup sdk ++ [configWriteTxn sdk]) ≠ ESP_OK) :
    (i2c_task sdk env n).aborted = true
      ∧ (i2c_task sdk env n).trace = initSetup sdk ++ [configWriteTxn sdk]
      ∧ (i2c_task sdk env n).trace.filter Event.isTransaction = [configWriteTxn sdk]
      ∧ convPointerTxn sdk ∉ (i2c_task sdk env n).trace
      ∧ convReadTxn sdk ∉ (i2c_task sdk env n).trace := by
  rcases task_of_abort sdk env n with ⟨_, ht⟩ | ⟨_, ht⟩ | ⟨_, ha, ht⟩ | ⟨hok, _, _⟩
  · rw [ht] at hrun
    simp [configWriteTxn, writeTxn] at hrun
  · rw [ht] at hrun
    simp [configWriteTxn, writeTxn] at hrun
  · refine ⟨ha, ht, ?_, ?_, ?_⟩
    · rw [ht]
      simp [initSetup, configWriteTxn, writeTxn, Event.isTransaction]
    · rw [ht]
      simp [initSetup, configWriteTxn, writeTxn, convPointerTxn, pointerTxn,
        writeCmds, pointerCmds]
    · rw [ht]
      simp [initSetup, configWriteTxn, writeTxn, convReadTxn, readTxn,
        writeCmds, readCmds]
  · exact absurd hok hfail

/-- Instance of `init_write_failure_aborts`: on a transport on which register
writes fail, the run consists of the set-up and the failed write, however
many passes of the loop are observed. -/
theorem init_write_failure_aborts_witness :
    configWriteTxn sdkAssert ∈ (i2c_task sdkAssert envWriteFails 3).trace
      ∧ envWriteFails.status (initSetup sdkAssert ++ [configWriteTxn sdkAssert]) ≠ ESP_OK
      ∧ (i2c_task sdkAssert envWriteFails 3).aborted = true
      ∧ (i2c_task sdkAssert envWriteFails 3).trace
        = initSetup sdkAssert ++ [configWriteTxn sdkAssert] :=
  have hrun : configWriteTxn sdkAssert ∈ (i2c_task sdkAssert envWriteFails 3).trace := by
    decide
  have hfail : envWriteFails.status (initSetup sdkAssert ++ [configWriteTxn sdkAssert])
      ≠ ESP_OK := by decide
  have h := init_write_failure_aborts sdkAssert envWriteFails 3 hrun hfail
  ⟨hrun, hfail, h.1, h.2.1⟩

end ADS1115
